import Mathlib

/-!
Verification of the TON arbitration platform (Telegram bot, Python source).

The development shallowly embeds the data model of src/database/models.py, the
persistence operations of src/database/db_manager.py, the fee arithmetic of
src/config.py (including its binary floating point behaviour), and the amount
step of the dispute creation dialogue in src/bot/handlers.py.  Parts of the
specified core that the source does not implement (the Escrow Ledger payout,
the amount validator) are modelled from the specification text and are marked
as such in their doc comments.
-/

namespace TonArb

/-! ### Exact model of Python binary64 arithmetic

Config.calculate_deposit and Config.calculate_arbiter_fee in src/config.py are
computed on Python floats: `round(amount * PCT / 100, 2)`.  A Python float is a
binary64 value, i.e. a dyadic rational with a 53 bit significand; every value
that occurs here is nonnegative, so we represent exact intermediate rationals
as unreduced numerator/denominator pairs of naturals and implement rounding to
the nearest binary64 value explicitly. -/

/-- Nonnegative rational as an unreduced numerator/denominator pair (the
denominator is positive in every use below). -/
structure Frac where
  num : Nat
  den : Nat
  deriving DecidableEq

/-- Binary logarithm by structural recursion on a fuel argument. -/
def log2fuel : Nat → Nat → Nat
  | 0, _ => 0
  | f + 1, n => if 2 ≤ n then log2fuel f (n / 2) + 1 else 0

/-- Floor of the binary logarithm of n, for n positive (0 when n = 0). -/
def nlog2 (n : Nat) : Nat := log2fuel n n

/-- Round the nonnegative rational n/d to the nearest integer, ties to even:
the tie rule of both IEEE 754 rounding and the Python round builtin. -/
def rne (n d : Nat) : Nat :=
  let q := n / d
  let r := n % d
  if 2 * r < d then q
  else if d < 2 * r then q + 1
  else if q % 2 = 0 then q else q + 1

/-- Does the power 2 ^ l (with l possibly negative) not exceed n/d? -/
def pow2LE (l : Int) (n d : Nat) : Bool :=
  if 0 ≤ l then d * 2 ^ l.toNat ≤ n else d ≤ n * 2 ^ (-l).toNat

/-- Floor of the binary logarithm of n/d, for n and d positive. -/
def flog2 (n d : Nat) : Int :=
  let l0 : Int := (nlog2 n : Int) - (nlog2 d : Int)
  if pow2LE l0 n d then l0 else l0 - 1

/-- Round a nonnegative rational to the nearest binary64 value: 53 bit
significand, round to nearest, ties to even.  Exponent overflow and subnormal
values are not modelled; every quantity handled by the platform lies between
one cent and a million, far inside the normal range. -/
def fpRound (x : Frac) : Frac :=
  if x.num = 0 then ⟨0, 1⟩
  else
    let e : Int := flog2 x.num x.den - 52
    if 0 ≤ e then
      let s := e.toNat
      ⟨rne x.num (x.den * 2 ^ s) * 2 ^ s, 1⟩
    else
      let s := (-e).toNat
      ⟨rne (x.num * 2 ^ s) x.den, 2 ^ s⟩

/-- Binary64 multiplication: the exact product, correctly rounded. -/
def fpMul (x y : Frac) : Frac := fpRound ⟨x.num * y.num, x.den * y.den⟩

/-- Binary64 division: the exact quotient, correctly rounded. -/
def fpDiv (x y : Frac) : Frac := fpRound ⟨x.num * y.den, x.den * y.num⟩

/-- Python round(x, 2) on a binary64 value x: CPython rounds the exact decimal
value of x to two places with ties to even and returns the nearest binary64
value of the result. -/
def pyRound2 (x : Frac) : Frac := fpRound ⟨rne (100 * x.num) x.den, 100⟩

/-- Reading a binary64 result back as a whole number of cents, the way the
rest of the system consumes a two decimal monetary value. -/
def centsOf (x : Frac) : Nat := rne (100 * x.num) x.den

/-! ### Configuration constants, from src/config.py -/

def MIN_DISPUTE_AMOUNT : ℚ := 10

def MAX_DISPUTE_AMOUNT : ℚ := 10000

def DEPOSIT_PERCENTAGE : Nat := 10

def ARBITER_FEE_PERCENTAGE : Nat := 7

/-- Config.calculate_deposit from src/config.py:
round(amount * DEPOSIT_PERCENTAGE / 100, 2), evaluated with Python binary64
float semantics; the argument is a float value. -/
def calculate_deposit (amount : Frac) : Frac :=
  pyRound2 (fpDiv (fpMul amount ⟨DEPOSIT_PERCENTAGE, 1⟩) ⟨100, 1⟩)

/-- Config.calculate_arbiter_fee from src/config.py:
round(amount * ARBITER_FEE_PERCENTAGE / 100, 2) on Python floats. -/
def calculate_arbiter_fee (amount : Frac) : Frac :=
  pyRound2 (fpDiv (fpMul amount ⟨ARBITER_FEE_PERCENTAGE, 1⟩) ⟨100, 1⟩)

/-! ### The Escrow Ledger of the specification, in exact cents

The specification section 4.2 prescribes exact two decimal arithmetic with
round half up.  The source implements only the two percentage helpers above;
the payout function exists nowhere in the source. -/

/-- Deposit of the specification: round2(0.10 times A) with round half up, on
an amount given in cents.  Spec side definition, for comparison with the float
computation of src/config.py. -/
def specDepositCents (a : Nat) : Nat := (10 * a + 50) / 100

/-- Arbiter fee of the specification: round2(0.07 times A) with round half up,
on an amount given in cents.  Spec side definition, also the fee used by the
modelled payout below. -/
def specFeeCents (a : Nat) : Nat := (7 * a + 50) / 100

/-- Modelled from the spec: the Escrow Ledger payout (section 4.2) is not
implemented anywhere in the source.  Following the policy the specification
fixes in its design notes (arbiter fee off the top, remainder split exactly)
and its worked example (A = 200.00, s = 60 gives fee 14.00 and payout
111.60 / 74.40): the pool is the amount minus the fee, the initiator receives
round2(pool times s / 100) with round half up, the respondent receives the
rest of the pool by subtraction.  Amounts in cents. -/
def payoutCents (a s : Nat) : Nat × Nat :=
  let pool := a - specFeeCents a
  let ini := (pool * s + 50) / 100
  (ini, pool - ini)

/-! ### Data model, from src/database/models.py -/

/-- Dispute lifecycle statuses (enum DisputeStatus). -/
inductive DisputeStatus
  | created
  | awaiting_invite
  | invite_accepted
  | awaiting_deposits
  | deposits_paid
  | choosing_arbiter
  | arbiter_chosen
  | evidence_upload
  | under_review
  | resolved
  | appealed
  | appeal_review
  | appeal_resolved
  | refunded
  | cancelled
  | expired
  deriving DecidableEq

/-- Dispute categories (enum DisputeCategory). -/
inductive DisputeCategory
  | goods_sale
  | freelance
  | rental
  | services
  | loan
  | shared_purchase
  | other
  deriving DecidableEq

/-- Arbiter specializations (enum ArbiterSpecialization). -/
inductive ArbiterSpecialization
  | goods_electronics
  | freelance_it
  | real_estate
  | creative
  | general
  deriving DecidableEq

/-- The Dispute dataclass of src/database/models.py.  Identifiers are integers
(Telegram ids), the amount is a Python float modelled as a rational, datetime
values are modelled as integers. -/
structure Dispute where
  initiator_id : Int
  amount : ℚ
  description : String
  category : DisputeCategory
  dispute_id : Option Int := none
  respondent_id : Option Int := none
  respondent_username : Option String := none
  status : DisputeStatus := DisputeStatus.created
  arbiter_id : Option Int := none
  contract_address : Option String := none
  created_at : Int
  updated_at : Int
  initiator_deposit_paid : Bool := false
  respondent_deposit_paid : Bool := false
  resolution : Option String := none
  initiator_share : Option Int := none
  evidence_deadline : Option Int := none
  decision_deadline : Option Int := none
  deriving DecidableEq

/-- Constructing a Dispute with the dataclass defaults of
src/database/models.py: only the four required fields are supplied and every
optional field keeps its declared default; now models datetime.utcnow(). -/
def mkDispute (initiator_id : Int) (amount : ℚ) (description : String)
    (category : DisputeCategory) (now : Int) : Dispute :=
  { initiator_id := initiator_id, amount := amount, description := description,
    category := category, created_at := now, updated_at := now }

/-- A row of the disputes table, schema of DatabaseManager.create_tables in
src/database/db_manager.py (the table has no deadline columns). -/
structure DisputeRow where
  dispute_id : Int
  initiator_id : Int
  respondent_id : Option Int
  respondent_username : Option String
  amount : ℚ
  description : String
  category : DisputeCategory
  status : DisputeStatus
  arbiter_id : Option Int
  contract_address : Option String
  created_at : Int
  updated_at : Int
  initiator_deposit_paid : Bool
  respondent_deposit_paid : Bool
  resolution : Option String
  initiator_share : Option Int
  deriving DecidableEq

/-- A row of the arbiters table.  The DECIMAL(3,2) rating is modelled in
hundredths and the DECIMAL(12,2) money columns in cents, as integers. -/
structure ArbiterRow where
  user_id : Int
  specialization : ArbiterSpecialization
  deposit_amount : Int
  is_active : Bool
  rating : Int
  cases_resolved : Int
  appeals_count : Int
  total_earned : Int
  deriving DecidableEq

/-- A row of the decisions table. -/
structure Decision where
  dispute_id : Int
  arbiter_id : Int
  initiator_share : Int
  reasoning : String
  created_at : Int
  is_appealed : Bool := false
  deriving DecidableEq

/-- The tables touched by the embedded DatabaseManager operations. -/
structure DbState where
  disputes : List DisputeRow
  decisions : List Decision
  arbiters : List ArbiterRow
  deriving DecidableEq

/-! ### Persistence operations, from src/database/db_manager.py -/

/-- DatabaseManager.create_dispute: INSERT INTO disputes with only
initiator_id, amount, description, category, status, respondent_username,
created_at and updated_at; every other column takes its schema default
(NULL for respondent_id, arbiter_id, contract_address, resolution and
initiator_share, FALSE for both deposit flags). -/
def createDispute (d : Dispute) (new_id : Int) : DisputeRow :=
  { dispute_id := new_id
    initiator_id := d.initiator_id
    respondent_id := none
    respondent_username := d.respondent_username
    amount := d.amount
    description := d.description
    category := d.category
    status := d.status
    arbiter_id := none
    contract_address := none
    created_at := d.created_at
    updated_at := d.updated_at
    initiator_deposit_paid := false
    respondent_deposit_paid := false
    resolution := none
    initiator_share := none }

/-- DatabaseManager.update_dispute_status: UPDATE disputes SET status,
updated_at WHERE dispute_id matches.  The update is unconditional: the current
status, the deposit flags and every other column are not consulted. -/
def updateDisputeStatus (r : DisputeRow) (s : DisputeStatus) (now : Int) :
    DisputeRow :=
  { r with status := s, updated_at := now }

/-- DatabaseManager.update_dispute_respondent: sets respondent_id and forces
status AWAITING_DEPOSITS, unconditionally. -/
def updateDisputeRespondent (r : DisputeRow) (respondent_id : Int) (now : Int) :
    DisputeRow :=
  { r with respondent_id := some respondent_id,
           status := DisputeStatus.awaiting_deposits, updated_at := now }

/-- DatabaseManager.update_dispute_arbiter: sets arbiter_id and forces status
UNDER_REVIEW, unconditionally; the previous arbiter_id and the identities of
the two parties are not consulted. -/
def updateDisputeArbiter (r : DisputeRow) (arbiter_id : Int) (now : Int) :
    DisputeRow :=
  { r with arbiter_id := some arbiter_id,
           status := DisputeStatus.under_review, updated_at := now }

/-- DatabaseManager.update_arbiter_stats: adds the given increments to the
matching arbiter row.  A separate method; nothing in the source invokes it. -/
def updateArbiterStats (l : List ArbiterRow) (arbiter_id : Int)
    (cases_increment : Int) (earned_amount : Int) : List ArbiterRow :=
  l.map fun a =>
    if a.user_id = arbiter_id then
      { a with cases_resolved := a.cases_resolved + cases_increment,
               total_earned := a.total_earned + earned_amount }
    else a

/-- DatabaseManager.create_decision: INSERT the decision row, then UPDATE the
matching dispute row to status RESOLVED recording initiator_share and the
reasoning as resolution.  No other table is touched; in particular the
arbiters table is left exactly as it was. -/
def createDecision (st : DbState) (dec : Decision) (now : Int) : DbState :=
  { disputes := st.disputes.map fun r =>
      if r.dispute_id = dec.dispute_id then
        { r with status := DisputeStatus.resolved,
                 initiator_share := some dec.initiator_share,
                 resolution := some dec.reasoning, updated_at := now }
      else r
    decisions := st.decisions ++ [dec]
    arbiters := st.arbiters }

/-- The WHERE clause of get_available_arbiters when a specialization is
requested: is_active AND (specialization = requested OR specialization =
general). -/
def arbiterMatches (spec : ArbiterSpecialization) (a : ArbiterRow) : Bool :=
  a.is_active &&
    (decide (a.specialization = spec) ||
     decide (a.specialization = ArbiterSpecialization.general))

/-- ORDER BY a.rating DESC, a.cases_resolved DESC as a total preorder: a row
comes no later than another when its rating is larger, or the ratings are
equal and its cases_resolved count is no smaller. -/
def arbiterBefore (a b : ArbiterRow) : Prop :=
  b.rating < a.rating ∨ (a.rating = b.rating ∧ b.cases_resolved ≤ a.cases_resolved)

instance : DecidableRel arbiterBefore := fun a b => by
  unfold arbiterBefore; exact inferInstance

instance : IsTotal ArbiterRow arbiterBefore :=
  ⟨by intro a b; unfold arbiterBefore; omega⟩

instance : IsTrans ArbiterRow arbiterBefore :=
  ⟨by intro a b c; unfold arbiterBefore; omega⟩

/-- DatabaseManager.get_available_arbiters: with a specialization, filter to
is_active and matching-or-general, otherwise filter to is_active only; order
by rating descending then cases_resolved descending; LIMIT rows.  The sort is
modelled with insertion sort, which realises the ORDER BY contract. -/
def getAvailableArbiters (table : List ArbiterRow)
    (spec : Option ArbiterSpecialization) (limit : Nat) : List ArbiterRow :=
  match spec with
  | some s =>
      (List.insertionSort arbiterBefore (table.filter (arbiterMatches s))).take limit
  | none =>
      (List.insertionSort arbiterBefore (table.filter fun a => a.is_active)).take limit

/-! ### The dispute creation dialogue, from src/bot/handlers.py -/

/-- FSM steps of CreateDisputeStates in src/bot/states.py. -/
inductive CreateDisputeStep
  | waiting_for_description
  | waiting_for_amount
  | waiting_for_category
  | waiting_for_respondent
  | confirming
  deriving DecidableEq

/-- The per-user FSM data accumulated by the dispute creation dialogue. -/
structure FsmData where
  step : CreateDisputeStep
  description : Option String := none
  amount : Option ℚ := none
  category : Option DisputeCategory := none
  deriving DecidableEq

/-- Outcome of the amount step: either the bot answers with an error message
and returns, or the amount is accepted and the dialogue advances. -/
inductive AmountOutcome
  | rejected (message : String)
  | accepted
  deriving DecidableEq

/-- Modelled from the spec: config.validate_amount is called by process_amount
in src/bot/handlers.py but is not defined in src/config.py; section 4.2 of the
specification defines validateAmount as rejecting amounts outside
[minAmount, maxAmount], with the defaults 10 and 10000 that match
Config.MIN_DISPUTE_AMOUNT and Config.MAX_DISPUTE_AMOUNT. -/
def validate_amount (a : ℚ) : Bool :=
  decide (MIN_DISPUTE_AMOUNT ≤ a) && decide (a ≤ MAX_DISPUTE_AMOUNT)

/-- The amount step of process_amount in src/bot/handlers.py, after a
successful numeric parse: the amount is validated with config.validate_amount;
on failure the handler only answers with the error message and returns,
leaving the FSM data untouched; on success it stores the amount and advances
the FSM to waiting_for_category. -/
def processAmount (a : ℚ) (data : FsmData) : AmountOutcome × FsmData :=
  if validate_amount a then
    (AmountOutcome.accepted,
     { data with amount := some a, step := CreateDisputeStep.waiting_for_category })
  else
    (AmountOutcome.rejected "amount out of bounds", data)

/-! ### The transition table of the specification

Modelled from the spec: section 4.1 fixes a transition table that the source
never implements; it is needed only to state what the code fails to check. -/

/-- Modelled from the spec: the section 4.1 transition table as a relation on
statuses.  The forward chain, the appeal chain, and the side terminal states:
CANCELLED while deposits are not both paid, REFUNDED after a deposit phase,
EXPIRED from the deadline carrying states, and the appeal window timeout
finalisation.  Used only to compare the unconditional status update of the
code against the specification. -/
def specStep : DisputeStatus → DisputeStatus → Bool
  | DisputeStatus.created, DisputeStatus.awaiting_invite => true
  | DisputeStatus.awaiting_invite, DisputeStatus.invite_accepted => true
  | DisputeStatus.invite_accepted, DisputeStatus.awaiting_deposits => true
  | DisputeStatus.awaiting_deposits, DisputeStatus.deposits_paid => true
  | DisputeStatus.deposits_paid, DisputeStatus.choosing_arbiter => true
  | DisputeStatus.choosing_arbiter, DisputeStatus.arbiter_chosen => true
  | DisputeStatus.arbiter_chosen, DisputeStatus.evidence_upload => true
  | DisputeStatus.evidence_upload, DisputeStatus.under_review => true
  | DisputeStatus.under_review, DisputeStatus.resolved => true
  | DisputeStatus.resolved, DisputeStatus.appealed => true
  | DisputeStatus.appealed, DisputeStatus.appeal_review => true
  | DisputeStatus.appeal_review, DisputeStatus.appeal_resolved => true
  | DisputeStatus.created, DisputeStatus.cancelled => true
  | DisputeStatus.awaiting_invite, DisputeStatus.cancelled => true
  | DisputeStatus.invite_accepted, DisputeStatus.cancelled => true
  | DisputeStatus.awaiting_deposits, DisputeStatus.cancelled => true
  | DisputeStatus.awaiting_deposits, DisputeStatus.refunded => true
  | DisputeStatus.deposits_paid, DisputeStatus.refunded => true
  | DisputeStatus.choosing_arbiter, DisputeStatus.refunded => true
  | DisputeStatus.arbiter_chosen, DisputeStatus.refunded => true
  | DisputeStatus.evidence_upload, DisputeStatus.expired => true
  | DisputeStatus.under_review, DisputeStatus.expired => true
  | DisputeStatus.resolved, DisputeStatus.appeal_resolved => true
  | _, _ => false

/-! ### Sample data used by concrete counterexamples and witnesses -/

/-- A stored dispute row in status RESOLVED, parties 1 and 2, arbiter 500. -/
def rowResolved : DisputeRow :=
  { dispute_id := 1, initiator_id := 1, respondent_id := some 2,
    respondent_username := some "@bob", amount := 200, description := "d",
    category := DisputeCategory.goods_sale, status := DisputeStatus.resolved,
    arbiter_id := some 500, contract_address := none, created_at := 0,
    updated_at := 0, initiator_deposit_paid := true,
    respondent_deposit_paid := true, resolution := some "r",
    initiator_share := some 60 }

/-- A stored dispute row in status AWAITING_DEPOSITS with both deposit flags
still false. -/
def rowAwaiting : DisputeRow :=
  { dispute_id := 2, initiator_id := 1, respondent_id := some 2,
    respondent_username := some "@bob", amount := 200, description := "d",
    category := DisputeCategory.goods_sale,
    status := DisputeStatus.awaiting_deposits, arbiter_id := none,
    contract_address := none, created_at := 0, updated_at := 0,
    initiator_deposit_paid := false, respondent_deposit_paid := false,
    resolution := none, initiator_share := none }

/-- A stored dispute row that already has arbiter 500 assigned. -/
def rowAssigned : DisputeRow :=
  { dispute_id := 3, initiator_id := 1, respondent_id := some 2,
    respondent_username := some "@bob", amount := 200, description := "d",
    category := DisputeCategory.goods_sale,
    status := DisputeStatus.choosing_arbiter, arbiter_id := some 500,
    contract_address := none, created_at := 0, updated_at := 0,
    initiator_deposit_paid := true, respondent_deposit_paid := true,
    resolution := none, initiator_share := none }

/-- A stored dispute row in status UNDER_REVIEW assigned to arbiter 5. -/
def rowUnderReview : DisputeRow :=
  { dispute_id := 4, initiator_id := 1, respondent_id := some 2,
    respondent_username := some "@bob", amount := 200, description := "d",
    category := DisputeCategory.goods_sale,
    status := DisputeStatus.under_review, arbiter_id := some 5,
    contract_address := none, created_at := 0, updated_at := 0,
    initiator_deposit_paid := true, respondent_deposit_paid := true,
    resolution := none, initiator_share := none }

/-- Arbiter 5, active, with no resolved cases and nothing earned yet. -/
def arb5 : ArbiterRow :=
  { user_id := 5, specialization := ArbiterSpecialization.general,
    deposit_amount := 10000, is_active := true, rating := 300,
    cases_resolved := 0, appeals_count := 0, total_earned := 0 }

/-- A decision by arbiter 5 on dispute 4 awarding the initiator 60 percent. -/
def decision4 : Decision :=
  { dispute_id := 4, arbiter_id := 5, initiator_share := 60,
    reasoning := "because", created_at := 9 }

/-- A database state holding dispute 4 under review and arbiter 5. -/
def state4 : DbState :=
  { disputes := [rowUnderReview], decisions := [], arbiters := [arb5] }

/-- Active arbiter with specialization freelance_it, rating 4.50, 9 cases. -/
def arbA : ArbiterRow :=
  { user_id := 11, specialization := ArbiterSpecialization.freelance_it,
    deposit_amount := 10000, is_active := true, rating := 450,
    cases_resolved := 9, appeals_count := 0, total_earned := 0 }

/-- Active arbiter with specialization general, rating 4.50, 3 cases. -/
def arbB : ArbiterRow :=
  { user_id := 12, specialization := ArbiterSpecialization.general,
    deposit_amount := 10000, is_active := true, rating := 450,
    cases_resolved := 3, appeals_count := 0, total_earned := 0 }

/-- Active arbiter with specialization real_estate, rating 5.00. -/
def arbC : ArbiterRow :=
  { user_id := 13, specialization := ArbiterSpecialization.real_estate,
    deposit_amount := 10000, is_active := true, rating := 500,
    cases_resolved := 1, appeals_count := 0, total_earned := 0 }

/-- Inactive arbiter with specialization freelance_it, rating 5.00. -/
def arbD : ArbiterRow :=
  { user_id := 14, specialization := ArbiterSpecialization.freelance_it,
    deposit_amount := 10000, is_active := false, rating := 500,
    cases_resolved := 7, appeals_count := 0, total_earned := 0 }

/-- A sample arbiters table. -/
def table1 : List ArbiterRow := [arbA, arbB, arbC, arbD]

/-- The FSM data of a user who has just been asked for the amount. -/
def dataAtAmount : FsmData :=
  { step := CreateDisputeStep.waiting_for_amount,
    description := some "a sufficiently long description of the conflict" }

/-! ## Theorems -/

/-- C1 counterexample: in the modelled payout (fee off the top, the policy the
specification fixes and its worked example realises) the respondent receives
the pool minus the initiator amount, not the amount minus the initiator
amount: at A = 200.00 and s = 60 the payout is (111.60, 74.40), while
A minus the initiator amount would be 88.40. -/
theorem payoutCents_cex :
    payoutCents 20000 60 = (11160, 7440) ∧
    20000 - (payoutCents 20000 60).1 = 8840 ∧
    (payoutCents 20000 60).2 ≠ 20000 - (payoutCents 20000 60).1 :=
  ⟨by decide, by decide, by decide⟩

/-- C1 amended: for every amount A in [minAmount, maxAmount] (in cents) and
every initiatorShare s in [0, 100], payout(A, s) computes respondentAmount as
(A minus fee(A)) minus initiatorAmount by subtraction, so that
initiatorAmount plus respondentAmount equals A minus fee(A) exactly, and
initiatorAmount plus respondentAmount plus arbiterFee sums back to A at two
decimal precision. -/
theorem payoutCents_exact (a s : Nat) (hs : s ≤ 100) (ha1 : 1000 ≤ a)
    (ha2 : a ≤ 1000000) :
    (payoutCents a s).2 = (a - specFeeCents a) - (payoutCents a s).1 ∧
    (payoutCents a s).1 + (payoutCents a s).2 = a - specFeeCents a ∧
    (payoutCents a s).1 + (payoutCents a s).2 + specFeeCents a = a := by
  have hfee : specFeeCents a ≤ a := by
    have h1 : 7 * a + 50 ≤ 100 * a := by omega
    have h2 : (7 * a + 50) / 100 ≤ 100 * a / 100 := Nat.div_le_div_right h1
    have h3 : 100 * a / 100 = a := Nat.mul_div_cancel_left a (by norm_num)
    simpa [specFeeCents, h3] using h2
  have hini : (payoutCents a s).1 ≤ a - specFeeCents a := by
    have h1 : (a - specFeeCents a) * s + 50 ≤ (a - specFeeCents a) * 100 + 50 := by
      have := Nat.mul_le_mul_left (a - specFeeCents a) hs
      omega
    have h2 : ((a - specFeeCents a) * s + 50) / 100 ≤
        ((a - specFeeCents a) * 100 + 50) / 100 := Nat.div_le_div_right h1
    have h3 : ((a - specFeeCents a) * 100 + 50) / 100 = a - specFeeCents a := by
      omega
    exact le_trans h2 (le_of_eq h3)
  have h4 : (payoutCents a s).2 = (a - specFeeCents a) - (payoutCents a s).1 := rfl
  exact ⟨h4, by omega, by omega⟩

/-- C1 witness: the amended payout property instantiated at the end to end
example of the specification, A = 200.00 and s = 60. -/
theorem payoutCents_exact_witness :
    60 ≤ 100 ∧ 1000 ≤ 20000 ∧ 20000 ≤ 1000000 ∧
    (payoutCents 20000 60).1 + (payoutCents 20000 60).2 + specFeeCents 20000 = 20000 :=
  ⟨by decide, by decide, by decide,
   (payoutCents_exact 20000 60 (by decide) (by decide) (by decide)).2.2⟩

/-- C2 counterexample: update_dispute_status applies a status change that the
section 4.1 transition table forbids.  From RESOLVED it writes CREATED, a
status not reachable from RESOLVED, with no error: the function has no failure
outcome at all. -/
theorem updateDisputeStatus_cex :
    specStep DisputeStatus.resolved DisputeStatus.created = false ∧
    rowResolved.status = DisputeStatus.resolved ∧
    (updateDisputeStatus rowResolved DisputeStatus.created 6).status =
      DisputeStatus.created :=
  ⟨by decide, rfl, rfl⟩

/-- C2 amended: update_dispute_status performs no transition check: for every
stored dispute row and every target status, including every pair the section
4.1 table forbids, the update succeeds and the status becomes the target. -/
theorem updateDisputeStatus_unchecked (r : DisputeRow) (s : DisputeStatus)
    (now : Int) (h : specStep r.status s = false) :
    (updateDisputeStatus r s now).status = s := rfl

/-- C2 witness: the unchecked update applied to a RESOLVED row and the
forbidden target CREATED. -/
theorem updateDisputeStatus_unchecked_witness :
    specStep rowResolved.status DisputeStatus.created = false ∧
    (updateDisputeStatus rowResolved DisputeStatus.created 6).status =
      DisputeStatus.created :=
  ⟨by decide,
   updateDisputeStatus_unchecked rowResolved DisputeStatus.created 6 (by decide)⟩

/-- C3 counterexample: at amount 10.25 (exactly representable in binary64, as
the first conjunct records) the deposit computation of src/config.py returns
the float 1.02…, not the round half up value 1.03: reading the result back at
two decimals gives 102 cents while round2(0.10 times 10.25) is 103 cents, and
the returned value does not equal 103/100. -/
theorem calculate_deposit_cex :
    (fpRound ⟨41, 4⟩).num * 4 = 41 * (fpRound ⟨41, 4⟩).den ∧
    centsOf (calculate_deposit ⟨41, 4⟩) = 102 ∧
    specDepositCents 1025 = 103 ∧
    (calculate_deposit ⟨41, 4⟩).num * 100 ≠ 103 * (calculate_deposit ⟨41, 4⟩).den :=
  ⟨by decide, by decide, by decide, by decide⟩

/-- C3 amended: the deposit and fee computations evaluate
round(amount times rate / 100, 2) in binary64 floating point with the Python
round builtin (ties to even on the exact value), not round half up on a fixed
point representation.  On the worked examples of the specification the result
agrees with round half up: deposit and fee of 150.00 and of 200.00 read back
as exactly the round half up cents; but at 10.25 the deposit reads back as
102 cents where round half up gives 103. -/
theorem calculate_deposit_fee_float :
    centsOf (calculate_deposit ⟨150, 1⟩) = specDepositCents 15000 ∧
    centsOf (calculate_arbiter_fee ⟨150, 1⟩) = specFeeCents 15000 ∧
    centsOf (calculate_deposit ⟨200, 1⟩) = specDepositCents 20000 ∧
    centsOf (calculate_arbiter_fee ⟨200, 1⟩) = specFeeCents 20000 ∧
    centsOf (calculate_deposit ⟨10, 1⟩) = specDepositCents 1000 ∧
    centsOf (calculate_deposit ⟨10000, 1⟩) = specDepositCents 1000000 ∧
    centsOf (calculate_arbiter_fee ⟨10000, 1⟩) = specFeeCents 1000000 ∧
    centsOf (calculate_deposit ⟨41, 4⟩) = 102 ∧
    specDepositCents 1025 = 103 :=
  ⟨by decide, by decide, by decide, by decide, by decide, by decide, by decide,
   by decide, by decide⟩

/-- C4 counterexample: a dispute row in AWAITING_DEPOSITS with both deposit
flags false is moved to DEPOSITS_PAID by update_dispute_status, which consults
neither flag; the flags are still false afterwards. -/
theorem depositsPaid_without_flags_cex :
    rowAwaiting.status = DisputeStatus.awaiting_deposits ∧
    rowAwaiting.initiator_deposit_paid = false ∧
    rowAwaiting.respondent_deposit_paid = false ∧
    (updateDisputeStatus rowAwaiting DisputeStatus.deposits_paid 7).status =
      DisputeStatus.deposits_paid ∧
    (updateDisputeStatus rowAwaiting DisputeStatus.deposits_paid 7).initiator_deposit_paid
      = false ∧
    (updateDisputeStatus rowAwaiting DisputeStatus.deposits_paid 7).respondent_deposit_paid
      = false :=
  ⟨rfl, rfl, rfl, rfl, rfl, rfl⟩

/-- C4 amended: the AWAITING_DEPOSITS to DEPOSITS_PAID step is not guarded on
the deposit flags: for every row with both flags false, update_dispute_status
still sets DEPOSITS_PAID and leaves both flags false. -/
theorem updateDisputeStatus_ignores_deposit_flags (r : DisputeRow) (now : Int)
    (h1 : r.initiator_deposit_paid = false)
    (h2 : r.respondent_deposit_paid = false) :
    (updateDisputeStatus r DisputeStatus.deposits_paid now).status =
      DisputeStatus.deposits_paid ∧
    (updateDisputeStatus r DisputeStatus.deposits_paid now).initiator_deposit_paid
      = false ∧
    (updateDisputeStatus r DisputeStatus.deposits_paid now).respondent_deposit_paid
      = false :=
  ⟨rfl, h1, h2⟩

/-- C4 witness: the unguarded DEPOSITS_PAID update applied to the sample row
whose two deposit flags are false. -/
theorem updateDisputeStatus_ignores_deposit_flags_witness :
    rowAwaiting.initiator_deposit_paid = false ∧
    rowAwaiting.respondent_deposit_paid = false ∧
    (updateDisputeStatus rowAwaiting DisputeStatus.deposits_paid 7).status =
      DisputeStatus.deposits_paid :=
  ⟨rfl, rfl, (updateDisputeStatus_ignores_deposit_flags rowAwaiting 7 rfl rfl).1⟩

/-- C5 counterexample: create_decision on a dispute in UNDER_REVIEW assigned
to arbiter 5 leaves the arbiters table exactly as it was: the cases_resolved
counter stays 0 (the claim requires 1) and total_earned stays 0 (the claim
requires the fee, 14.00 on the 200.00 amount). -/
theorem createDecision_stats_cex :
    rowUnderReview.status = DisputeStatus.under_review ∧
    rowUnderReview.arbiter_id = some 5 ∧
    (createDecision state4 decision4 9).arbiters = [arb5] ∧
    (createDecision state4 decision4 9).arbiters.map ArbiterRow.cases_resolved = [0] ∧
    (createDecision state4 decision4 9).arbiters.map ArbiterRow.total_earned = [0] ∧
    specFeeCents 20000 = 1400 :=
  ⟨rfl, rfl, rfl, rfl, rfl, by decide⟩

/-- C5 amended: create_decision appends the immutable Decision row and updates
the matching dispute to RESOLVED, recording the initiator share and the
reasoning as resolution, but it does not modify arbiter statistics: the
arbiters table is returned unchanged (update_arbiter_stats is a separate
method that create_decision does not invoke). -/
theorem createDecision_effects (st : DbState) (dec : Decision) (now : Int) :
    (createDecision st dec now).decisions = st.decisions ++ [dec] ∧
    (createDecision st dec now).arbiters = st.arbiters ∧
    ∀ r ∈ st.disputes, r.dispute_id = dec.dispute_id →
      { r with status := DisputeStatus.resolved,
               initiator_share := some dec.initiator_share,
               resolution := some dec.reasoning,
               updated_at := now } ∈ (createDecision st dec now).disputes := by
  refine ⟨rfl, rfl, ?_⟩
  intro r hr hid
  simp only [createDecision, List.mem_map]
  refine ⟨r, hr, ?_⟩
  rw [if_pos hid]

/-- C5 witness: the effects of create_decision instantiated at the sample
state: the updated dispute 4 row is in the returned disputes table. -/
theorem createDecision_effects_witness :
    rowUnderReview ∈ state4.disputes ∧
    { rowUnderReview with status := DisputeStatus.resolved,
                          initiator_share := some 60,
                          resolution := some "because",
                          updated_at := 9 } ∈
      (createDecision state4 decision4 9).disputes :=
  ⟨List.mem_singleton.mpr rfl,
   (createDecision_effects state4 decision4 9).2.2 rowUnderReview
     (List.mem_singleton.mpr rfl) rfl⟩

/-- C6: the amount validation accepts exactly the amounts inside
[MIN_DISPUTE_AMOUNT, MAX_DISPUTE_AMOUNT]; in the amount step of dispute
creation an out of bounds amount is answered with a recoverable validation
error and the FSM data is returned unchanged, while an in bounds amount is
accepted, stored, and advances the dialogue. -/
theorem processAmount_validates (a : ℚ) (data : FsmData) :
    (validate_amount a = true ↔
      MIN_DISPUTE_AMOUNT ≤ a ∧ a ≤ MAX_DISPUTE_AMOUNT) ∧
    (¬ (MIN_DISPUTE_AMOUNT ≤ a ∧ a ≤ MAX_DISPUTE_AMOUNT) →
      processAmount a data = (AmountOutcome.rejected "amount out of bounds", data)) ∧
    (MIN_DISPUTE_AMOUNT ≤ a ∧ a ≤ MAX_DISPUTE_AMOUNT →
      (processAmount a data).1 = AmountOutcome.accepted ∧
      (processAmount a data).2.amount = some a ∧
      (processAmount a data).2.step = CreateDisputeStep.waiting_for_category) := by
  have hv : validate_amount a = true ↔
      MIN_DISPUTE_AMOUNT ≤ a ∧ a ≤ MAX_DISPUTE_AMOUNT := by
    simp [validate_amount]
  refine ⟨hv, ?_, ?_⟩
  · intro h
    have hf : validate_amount a = false := by
      cases hb : validate_amount a with
      | false => rfl
      | true => exact absurd (hv.mp hb) h
    simp [processAmount, hf]
  · intro h
    have ht : validate_amount a = true := hv.mpr h
    simp [processAmount, ht]

/-- C6 witness: the amount 5 lies below the minimum and is rejected with the
FSM data unchanged; the amount 150 is accepted. -/
theorem processAmount_validates_witness :
    processAmount 5 dataAtAmount =
      (AmountOutcome.rejected "amount out of bounds", dataAtAmount) ∧
    (processAmount 150 dataAtAmount).1 = AmountOutcome.accepted :=
  ⟨(processAmount_validates 5 dataAtAmount).2.1
     (by norm_num [MIN_DISPUTE_AMOUNT, MAX_DISPUTE_AMOUNT]),
   ((processAmount_validates 150 dataAtAmount).2.2
     (by norm_num [MIN_DISPUTE_AMOUNT, MAX_DISPUTE_AMOUNT])).1⟩

/-- C7 counterexample: a dispute row that already has arbiter 500 assigned
accepts a new assignment with no error, even when the assignee is the
initiator of the dispute: update_dispute_arbiter overwrites the arbiter and
forces UNDER_REVIEW unconditionally. -/
theorem updateDisputeArbiter_cex :
    rowAssigned.arbiter_id = some 500 ∧
    rowAssigned.initiator_id = 1 ∧
    (updateDisputeArbiter rowAssigned 1 8).arbiter_id = some 1 ∧
    (updateDisputeArbiter rowAssigned 1 8).status = DisputeStatus.under_review :=
  ⟨rfl, rfl, rfl, rfl⟩

/-- C7 amended: update_dispute_arbiter has no AlreadyAssigned and no
InvalidParty failure: even when the row already carries an arbiter or the
assignee is one of the two parties, the assignment succeeds, overwriting
arbiter_id and forcing status UNDER_REVIEW. -/
theorem updateDisputeArbiter_unconditional (r : DisputeRow) (aid now : Int)
    (h : r.arbiter_id ≠ none ∨ aid = r.initiator_id ∨ some aid = r.respondent_id) :
    (updateDisputeArbiter r aid now).arbiter_id = some aid ∧
    (updateDisputeArbiter r aid now).status = DisputeStatus.under_review :=
  ⟨rfl, rfl⟩

/-- C7 witness: the unconditional assignment applied to the sample row that
already has arbiter 500. -/
theorem updateDisputeArbiter_unconditional_witness :
    rowAssigned.arbiter_id = some 500 ∧
    (updateDisputeArbiter rowAssigned 1 8).arbiter_id = some 1 :=
  ⟨rfl, (updateDisputeArbiter_unconditional rowAssigned 1 8
     (Or.inl (by decide))).1⟩

/-- C8: with a requested specialization, the arbiter candidate query returns
only rows with is_active true whose specialization equals the requested one
or equals GENERAL, and the returned list is ordered by rating descending and
then by cases_resolved descending. -/
theorem getAvailableArbiters_spec_query (table : List ArbiterRow)
    (s : ArbiterSpecialization) (limit : Nat) :
    (∀ a ∈ getAvailableArbiters table (some s) limit,
      a.is_active = true ∧
      (a.specialization = s ∨ a.specialization = ArbiterSpecialization.general)) ∧
    List.Sorted arbiterBefore (getAvailableArbiters table (some s) limit) := by
  constructor
  · intro a ha
    have h1 : a ∈ List.insertionSort arbiterBefore (table.filter (arbiterMatches s)) :=
      List.take_subset _ _ ha
    have h2 : a ∈ table.filter (arbiterMatches s) :=
      ((List.perm_insertionSort arbiterBefore _).mem_iff).mp h1
    have h3 : arbiterMatches s a = true := (List.mem_filter.mp h2).2
    simp only [arbiterMatches, Bool.and_eq_true, Bool.or_eq_true,
      decide_eq_true_eq] at h3
    exact ⟨h3.1, h3.2⟩
  · exact List.Pairwise.sublist (List.take_sublist _ _)
      (List.sorted_insertionSort arbiterBefore _)

/-- C8 witness: in the sample table, the query for freelance_it returns the
active freelance_it arbiter, who indeed satisfies the filter. -/
theorem getAvailableArbiters_spec_query_witness :
    arbA ∈ getAvailableArbiters table1 (some ArbiterSpecialization.freelance_it) 5 ∧
    arbA.is_active = true ∧
    (arbA.specialization = ArbiterSpecialization.freelance_it ∨
     arbA.specialization = ArbiterSpecialization.general) :=
  ⟨by decide,
   ((getAvailableArbiters_spec_query table1 ArbiterSpecialization.freelance_it 5).1
      arbA (by decide)).1,
   ((getAvailableArbiters_spec_query table1 ArbiterSpecialization.freelance_it 5).1
      arbA (by decide)).2⟩

/-- C9: a freshly constructed Dispute has status CREATED with respondent_id,
arbiter_id, resolution, initiator_share and both deadline fields unset and
both deposit flags false, and create_dispute persists it with exactly the
schema defaults: no respondent, no arbiter, no resolution, no share, both
deposit flags false, status CREATED. -/
theorem mkDispute_createDispute_defaults (i : Int) (amt : ℚ) (descr : String)
    (c : DisputeCategory) (now : Int) (new_id : Int) :
    (mkDispute i amt descr c now).status = DisputeStatus.created ∧
    (mkDispute i amt descr c now).respondent_id = none ∧
    (mkDispute i amt descr c now).arbiter_id = none ∧
    (mkDispute i amt descr c now).resolution = none ∧
    (mkDispute i amt descr c now).initiator_share = none ∧
    (mkDispute i amt descr c now).evidence_deadline = none ∧
    (mkDispute i amt descr c now).decision_deadline = none ∧
    (mkDispute i amt descr c now).initiator_deposit_paid = false ∧
    (mkDispute i amt descr c now).respondent_deposit_paid = false ∧
    (createDispute (mkDispute i amt descr c now) new_id).status =
      DisputeStatus.created ∧
    (createDispute (mkDispute i amt descr c now) new_id).respondent_id = none ∧
    (createDispute (mkDispute i amt descr c now) new_id).arbiter_id = none ∧
    (createDispute (mkDispute i amt descr c now) new_id).resolution = none ∧
    (createDispute (mkDispute i amt descr c now) new_id).initiator_share = none ∧
    (createDispute (mkDispute i amt descr c now) new_id).initiator_deposit_paid
      = false ∧
    (createDispute (mkDispute i amt descr c now) new_id).respondent_deposit_paid
      = false :=
  ⟨rfl, rfl, rfl, rfl, rfl, rfl, rfl, rfl, rfl, rfl, rfl, rfl, rfl, rfl, rfl, rfl⟩

/-- C10: for every specialization argument (including none) the arbiter
candidate query returns at most limit rows, and without a requested
specialization the result is still restricted to rows with is_active true and
ordered by rating descending then cases_resolved descending. -/
theorem getAvailableArbiters_limit_default (table : List ArbiterRow)
    (spec : Option ArbiterSpecialization) (limit : Nat) :
    (getAvailableArbiters table spec limit).length ≤ limit ∧
    (∀ a ∈ getAvailableArbiters table none limit, a.is_active = true) ∧
    List.Sorted arbiterBefore (getAvailableArbiters table none limit) := by
  refine ⟨?_, ?_, ?_⟩
  · cases spec with
    | none => exact List.length_take_le _ _
    | some s => exact List.length_take_le _ _
  · intro a ha
    have h1 : a ∈ List.insertionSort arbiterBefore (table.filter fun x => x.is_active) :=
      List.take_subset _ _ ha
    have h2 : a ∈ table.filter fun x => x.is_active :=
      ((List.perm_insertionSort arbiterBefore _).mem_iff).mp h1
    exact (List.mem_filter.mp h2).2
  · exact List.Pairwise.sublist (List.take_sublist _ _)
      (List.sorted_insertionSort arbiterBefore _)

/-- C10 witness: in the sample table a query with limit 1 returns one row,
and the query with no specialization contains the top rated active arbiter,
who is active. -/
theorem getAvailableArbiters_limit_default_witness :
    (getAvailableArbiters table1 (some ArbiterSpecialization.freelance_it) 1).length ≤ 1 ∧
    arbC ∈ getAvailableArbiters table1 none 5 ∧
    arbC.is_active = true :=
  ⟨(getAvailableArbiters_limit_default table1
      (some ArbiterSpecialization.freelance_it) 1).1,
   by decide,
   (getAvailableArbiters_limit_default table1 none 5).2.1 arbC (by decide)⟩

end TonArb
